import Mathlib

/-
Shallow embedding of the tinyllama-x intent-to-command planning core:
package-manager adapters, distro lookup, planner, simulate and execute
workflow, output summarization and the operation history store.
Each definition mirrors the corresponding Python function from the
repository (files tinyllamax/adapters/*.py, tinyllamax/core/planner.py,
tinyllamax/core/history.py, tinyllamax/utils/distro.py,
tinyllamax/utils/shell.py).
-/

namespace Tinyllamax

/-- A single-quote character as a string, used inside plan descriptions. -/
def apos : String := String.singleton (Char.ofNat 39)

/-- Embedding of tinyllamax.adapters.base.PackageManagerAdapter: each
operation returns a ready-to-execute argument vector. -/
structure PackageManagerAdapter where
  install : List String → List String
  remove : List String → List String
  update : List String
  upgrade : List String
  search : String → List String

/-- Embedding of tinyllamax.adapters.apt.AptAdapter. -/
def AptAdapter (dry_run : Bool) : PackageManagerAdapter where
  install := fun packages =>
    if dry_run then ["apt", "install", "-s"] ++ packages
    else ["sudo", "apt", "install", "-y"] ++ packages
  remove := fun packages =>
    if dry_run then ["apt", "remove", "-s"] ++ packages
    else ["sudo", "apt", "remove", "-y"] ++ packages
  update := if dry_run then ["apt", "update", "-s"] else ["sudo", "apt", "update"]
  upgrade := if dry_run then ["apt", "upgrade", "-s"] else ["sudo", "apt", "upgrade", "-y"]
  search := fun query => ["apt", "search", query]

/-- Embedding of tinyllamax.adapters.dnf.DnfAdapter. -/
def DnfAdapter (dry_run : Bool) : PackageManagerAdapter where
  install := fun packages =>
    if dry_run then ["dnf", "install", "--assumeno"] ++ packages
    else ["sudo", "dnf", "install", "-y"] ++ packages
  remove := fun packages =>
    if dry_run then ["dnf", "remove", "--assumeno"] ++ packages
    else ["sudo", "dnf", "remove", "-y"] ++ packages
  update := if dry_run then ["dnf", "upgrade", "--assumeno"] else ["sudo", "dnf", "upgrade", "-y"]
  upgrade := if dry_run then ["dnf", "upgrade", "--assumeno"] else ["sudo", "dnf", "upgrade", "-y"]
  search := fun query => ["dnf", "search", query]

/-- Embedding of tinyllamax.adapters.pacman.PacmanAdapter. -/
def PacmanAdapter (dry_run : Bool) : PackageManagerAdapter where
  install := fun packages =>
    if dry_run then ["pacman", "-Sp"] ++ packages
    else ["sudo", "pacman", "-S", "--noconfirm"] ++ packages
  remove := fun packages =>
    if dry_run then ["pacman", "-R", "--print"] ++ packages
    else ["sudo", "pacman", "-R", "--noconfirm"] ++ packages
  update := if dry_run then ["pacman", "-Syu", "--print"] else ["sudo", "pacman", "-Syu", "--noconfirm"]
  upgrade := if dry_run then ["pacman", "-Qu"] else ["sudo", "pacman", "-Syu", "--noconfirm"]
  search := fun query => ["pacman", "-Ss", query]

/-- Embedding of tinyllamax.adapters.zypper.ZypperAdapter. -/
def ZypperAdapter (dry_run : Bool) : PackageManagerAdapter where
  install := fun packages =>
    if dry_run then ["zypper", "--dry-run", "install"] ++ packages
    else ["sudo", "zypper", "install", "-y"] ++ packages
  remove := fun packages =>
    if dry_run then ["zypper", "--dry-run", "remove"] ++ packages
    else ["sudo", "zypper", "remove", "-y"] ++ packages
  update := if dry_run then ["zypper", "--dry-run", "update"] else ["sudo", "zypper", "update", "-y"]
  upgrade := if dry_run then ["zypper", "--dry-run", "update"] else ["sudo", "zypper", "update", "-y"]
  search := fun query => ["zypper", "search", query]

/-- Embedding of tinyllamax.adapters.apk.ApkAdapter. -/
def ApkAdapter (dry_run : Bool) : PackageManagerAdapter where
  install := fun packages =>
    if dry_run then ["apk", "add", "--simulate"] ++ packages
    else ["sudo", "apk", "add"] ++ packages
  remove := fun packages =>
    if dry_run then ["apk", "del", "--simulate"] ++ packages
    else ["sudo", "apk", "del"] ++ packages
  update := if dry_run then ["apk", "update", "--simulate"] else ["sudo", "apk", "update"]
  upgrade := if dry_run then ["apk", "upgrade", "--simulate"] else ["sudo", "apk", "upgrade"]
  search := fun query => ["apk", "search", query]

/-- Python str.lower restricted to its ASCII behaviour, written as a map over
the character list so that it evaluates inside the kernel. -/
def pyLower (s : String) : String := String.mk (s.data.map Char.toLower)

/-- Embedding of tinyllamax.utils.distro.preferred_pkg_manager: static
distro-id to package-manager lookup, unknown ids map to "unknown". -/
def preferred_pkg_manager (distro_id : String) : String :=
  let d := pyLower distro_id
  if ["ubuntu", "debian", "pop", "linuxmint", "mint"].contains d then "apt"
  else if ["fedora", "rhel", "centos", "alma", "rocky"].contains d then "dnf"
  else if ["arch", "manjaro", "endeavouros"].contains d then "pacman"
  else if d.startsWith "opensuse" || ["suse", "sles"].contains d then "zypper"
  else if d == "alpine" then "apk"
  else "unknown"

/-- Embedding of the private helper in tinyllamax.core.planner that resolves a
package-manager name to an adapter instance; an unknown name raises
ValueError, modelled as the error branch. -/
def get_adapter (pm : String) (dry_run : Bool) : Except String PackageManagerAdapter :=
  if pm == "apt" then .ok (AptAdapter dry_run)
  else if pm == "dnf" then .ok (DnfAdapter dry_run)
  else if pm == "pacman" then .ok (PacmanAdapter dry_run)
  else if pm == "zypper" then .ok (ZypperAdapter dry_run)
  else if pm == "apk" then .ok (ApkAdapter dry_run)
  else .error ("Unsupported package manager: " ++ pm)

/-- Embedding of the closed intent union from tinyllamax.core.intents. -/
inductive IntentType where
  | DetectDistro
  | SearchPackage (query : String)
  | InstallPackage (package : String) (assume_yes : Bool)
  | RemovePackage (package : String) (assume_yes : Bool)
  | UpdateSystem
  | UpgradeSystem
  | ExplainCommand (command : String)
  | TroubleshootError (error_text : String)
deriving DecidableEq, Repr

/-- Embedding of the Plan dataclass from tinyllamax.core.planner. -/
structure Plan where
  description : String
  simulate_cmd : Option (List String)
  real_cmd : Option (List String)
deriving DecidableEq, Repr

/-- First maximal run of non-whitespace characters after skipping leading
whitespace; the list-level core of Python str.split followed by indexing 0. -/
def firstTokenAux (cs : List Char) : List Char :=
  (cs.dropWhile Char.isWhitespace).takeWhile (fun c => !c.isWhitespace)

/-- Python expression s.split()[0] as a total function: none models the
IndexError raised when the string has no non-whitespace token. -/
def firstTokenOpt (s : String) : Option String :=
  let t := firstTokenAux s.data
  if t.isEmpty then none else some (String.mk t)

/-- Python truthiness test applied to an optional command list: None and the
empty list are falsy, matching the checks in simulate and execute. -/
def cmdFalsy : Option (List String) → Bool
  | none => true
  | some [] => true
  | some (_ :: _) => false

/-- Per-branch default in build_plan: a missing or empty distro id falls back
to "ubuntu" (Python truthiness of the distro_id string). -/
def defaultDistro : Option String → String
  | none => "ubuntu"
  | some s => if s == "" then "ubuntu" else s

/-- Embedding of tinyllamax.core.planner.build_plan. Exceptions raised by the
Python code (unknown package manager, the unsupported-intent fallback, and
the IndexError from splitting a blank ExplainCommand command) are modelled
as the error branch of Except. -/
def build_plan (intent : IntentType) (distro_id : Option String := none) : Except String Plan :=
  match intent with
  | .DetectDistro =>
      .ok { description := "Detect Linux distribution and version",
            simulate_cmd := some ["cat", "/etc/os-release"],
            real_cmd := none }
  | .SearchPackage query =>
      let pm := preferred_pkg_manager (defaultDistro distro_id)
      match get_adapter pm false, get_adapter pm true with
      | .ok adapter, .ok dry_adapter =>
          .ok { description := "Search for package " ++ apos ++ query ++ apos ++ " using " ++ pm,
                simulate_cmd := some (dry_adapter.search query),
                real_cmd := some (adapter.search query) }
      | .error e, _ => .error e
      | _, .error e => .error e
  | .InstallPackage package assume_yes =>
      let pm := preferred_pkg_manager (defaultDistro distro_id)
      match get_adapter pm false, get_adapter pm true with
      | .ok adapter, .ok dry_adapter =>
          .ok { description := "Install package " ++ apos ++ package ++ apos ++ " using " ++ pm,
                simulate_cmd := some (dry_adapter.install [package]),
                real_cmd := some (if assume_yes then adapter.install [package]
                                  else adapter.install [package]) }
      | .error e, _ => .error e
      | _, .error e => .error e
  | .RemovePackage package _assume_yes =>
      let pm := preferred_pkg_manager (defaultDistro distro_id)
      match get_adapter pm false, get_adapter pm true with
      | .ok adapter, .ok dry_adapter =>
          .ok { description := "Remove package " ++ apos ++ package ++ apos ++ " using " ++ pm,
                simulate_cmd := some (dry_adapter.remove [package]),
                real_cmd := some (adapter.remove [package]) }
      | .error e, _ => .error e
      | _, .error e => .error e
  | .UpdateSystem =>
      let pm := preferred_pkg_manager (defaultDistro distro_id)
      match get_adapter pm false, get_adapter pm true with
      | .ok adapter, .ok dry_adapter =>
          .ok { description := "Update system package lists (" ++ pm ++ ")",
                simulate_cmd := some dry_adapter.update,
                real_cmd := some adapter.update }
      | .error e, _ => .error e
      | _, .error e => .error e
  | .UpgradeSystem =>
      let pm := preferred_pkg_manager (defaultDistro distro_id)
      match get_adapter pm false, get_adapter pm true with
      | .ok adapter, .ok dry_adapter =>
          .ok { description := "Upgrade installed packages (" ++ pm ++ ")",
                simulate_cmd := some dry_adapter.upgrade,
                real_cmd := some adapter.upgrade }
      | .error e, _ => .error e
      | _, .error e => .error e
  | .ExplainCommand command =>
      match firstTokenOpt command with
      | some tok =>
          .ok { description := "Explain command: " ++ command,
                simulate_cmd := some ["bash", "-lc", "type " ++ tok ++ " || true"],
                real_cmd := none }
      | none => .error "IndexError: list index out of range"
  | .TroubleshootError _ => .error "Unsupported intent type: TroubleshootError"

/-- Embedding of the ShellResult dataclass from tinyllamax.utils.shell. -/
structure ShellResult where
  command : List String
  returncode : Int
  stdout : String
  stderr : String
  simulated : Bool := false
deriving DecidableEq, Repr

/-- Possible outcomes of one subprocess invocation, the environment side of
tinyllamax.utils.shell.run: normal completion with an exit code and captured
streams, a timeout, or a spawn failure (any other exception). -/
inductive ShellOutcome where
  | completed (returncode : Int) (stdout stderr : String)
  | timedOut
  | spawnFailure (message : String)
deriving DecidableEq, Repr

/-- Embedding of tinyllamax.utils.shell.run: every outcome, including timeout
and spawn failure, is converted to a ShellResult; the two exceptional paths
produce returncode -1 and a synthetic stderr message. -/
def run (cmd : List String) (outcome : ShellOutcome) : ShellResult :=
  match outcome with
  | .completed rc out err =>
      { command := cmd, returncode := rc, stdout := out, stderr := err }
  | .timedOut =>
      { command := cmd, returncode := -1, stdout := "",
        stderr := "TIMEOUT: command exceeded limit" }
  | .spawnFailure msg =>
      { command := cmd, returncode := -1, stdout := "", stderr := "ERROR: " ++ msg }

/-- Python str.strip: drop leading and trailing whitespace, written over the
character list so that it evaluates inside the kernel. -/
def pyStrip (s : String) : String :=
  String.mk (((s.data.dropWhile Char.isWhitespace).reverse.dropWhile Char.isWhitespace).reverse)

/-- Split a character list at newline characters; the list-level core of
splitting a string into lines. -/
def splitNl : List Char → List (List Char)
  | [] => [[]]
  | c :: rest =>
      if c = Char.ofNat 10 then [] :: splitNl rest
      else
        match splitNl rest with
        | [] => [[c]]
        | h :: t => (c :: h) :: t

/-- Lines of a string, Python str.splitlines restricted to newline-separated
text (the form subprocess text mode produces). -/
def pyLines (s : String) : List String := (splitNl s.data).map String.mk

/-- Lines of the whitespace-stripped stream that still hold a non-blank
character, kept verbatim; the list comprehensions in summarize_output. -/
def nonBlankLines (s : String) : List String :=
  (pyLines (pyStrip s)).filter (fun l => pyStrip l != "")

/-- Embedding of tinyllamax.utils.shell.summarize_output. -/
def summarize_output (stdout stderr : String) (max_lines : Nat := 10) : String :=
  let out_lines := nonBlankLines stdout
  let err_lines := nonBlankLines stderr
  let combined := out_lines ++ (if err_lines != [] then "--- STDERR ---" :: err_lines else [])
  let combined2 := if combined.length > max_lines then combined.drop (combined.length - max_lines)
                   else combined
  if combined2 != [] then String.intercalate "\n" combined2 else "<no output>"

/-- Data handed to log_operation by the workflow; the history store adds the
id and timestamp when persisting. -/
structure LogEntry where
  intent_type : String
  command : String
  status : String
  output_summary : String
  error_message : Option String
deriving DecidableEq, Repr

/-- Embedding of the SimulationResult dataclass from tinyllamax.core.planner. -/
structure SimulationResult where
  plan : Plan
  result : ShellResult
  summary : String
deriving DecidableEq, Repr

/-- Embedding of the ExecutionResult dataclass from tinyllamax.core.planner. -/
structure ExecutionResult where
  plan : Plan
  result : Option ShellResult
  summary : String
deriving DecidableEq, Repr

/-- Python space-join of an argument vector. -/
def joinSpace (cmd : List String) : String := String.intercalate " " cmd

/-- Embedding of tinyllamax.core.planner.simulate. The shell environment is an
oracle from the argument vector to an outcome. The second component is the
log entry submitted to the history (none when nothing is logged: the trivial
branch, or the swallowed IndexError when the description has no token). -/
def simulate (plan : Plan) (shell : List String → ShellOutcome) :
    SimulationResult × Option LogEntry :=
  if cmdFalsy plan.simulate_cmd then
    ({ plan := plan,
       result := { command := [], returncode := 0, stdout := "", stderr := "",
                   simulated := true },
       summary := "<nothing to simulate>" }, none)
  else
    let cmd := plan.simulate_cmd.getD []
    let res0 := run cmd (shell cmd)
    let res := { res0 with simulated := true }
    let summary := summarize_output res.stdout res.stderr
    let entry := (firstTokenOpt plan.description).map (fun it =>
      { intent_type := it, command := joinSpace cmd, status := "simulated",
        output_summary := summary.take 200, error_message := none })
    ({ plan := plan, result := res, summary := summary }, entry)

/-- Embedding of tinyllamax.core.planner.execute, in the same style as
simulate. -/
def execute (plan : Plan) (shell : List String → ShellOutcome) :
    ExecutionResult × Option LogEntry :=
  if cmdFalsy plan.real_cmd then
    ({ plan := plan, result := none, summary := "<no execution needed>" }, none)
  else
    let cmd := plan.real_cmd.getD []
    let res := run cmd (shell cmd)
    let summary := summarize_output res.stdout res.stderr
    let status := if res.returncode == 0 then "success" else "failed"
    let error_msg := if res.returncode != 0 && res.stderr != "" then some (res.stderr.take 500)
                     else none
    let entry := (firstTokenOpt plan.description).map (fun it =>
      { intent_type := it, command := joinSpace cmd, status := status,
        output_summary := summary.take 200, error_message := error_msg })
    ({ plan := plan, result := some res, summary := summary }, entry)

/-- Embedding of the persisted row of the operations table in
tinyllamax.core.history. Timestamps are modelled as naturals; ISO-8601
timestamp strings compare lexicographically in the same order as the
instants they denote. -/
structure OperationRecord where
  id : Nat
  timestamp : Nat
  intent_type : String
  command : String
  status : String
  output_summary : String
  error_message : Option String
deriving DecidableEq, Repr

/-- Scan order of the timestamp index for ORDER BY timestamp DESC: later
timestamps first, rows with equal timestamps by ascending id. -/
def RowLE (a b : OperationRecord) : Prop :=
  b.timestamp < a.timestamp ∨ (a.timestamp = b.timestamp ∧ a.id ≤ b.id)

instance : DecidableRel RowLE := fun a b => by unfold RowLE; infer_instance

instance : IsTotal OperationRecord RowLE where
  total a b := by
    unfold RowLE
    rcases Nat.lt_trichotomy a.timestamp b.timestamp with h | h | h
    · exact Or.inr (Or.inl h)
    · rcases Nat.le_total a.id b.id with hid | hid
      · exact Or.inl (Or.inr ⟨h, hid⟩)
      · exact Or.inr (Or.inr ⟨h.symm, hid⟩)
    · exact Or.inl (Or.inl h)

instance : IsTrans OperationRecord RowLE where
  trans a b c hab hbc := by
    unfold RowLE at hab hbc ⊢
    rcases hab with h1 | ⟨h1, h1id⟩ <;> rcases hbc with h2 | ⟨h2, h2id⟩
    · exact Or.inl (h2.trans h1)
    · exact Or.inl (h2 ▸ h1)
    · exact Or.inl (h1 ▸ h2)
    · exact Or.inr ⟨h1.trans h2, h1id.trans h2id⟩

/-- Rows in the order ORDER BY timestamp DESC returns them. -/
def sortRows (rows : List OperationRecord) : List OperationRecord :=
  rows.insertionSort RowLE

/-- Embedding of OperationHistory.cleanup_old: delete every row whose id is
not among the ids of the keep_count first rows in timestamp-descending
order, and return the surviving rows together with the deleted count
(cursor.rowcount of the DELETE statement). -/
def cleanup_old (rows : List OperationRecord) (keep_count : Nat := 1000) :
    List OperationRecord × Nat :=
  let kept_ids := ((sortRows rows).take keep_count).map OperationRecord.id
  let remaining := rows.filter (fun r => kept_ids.contains r.id)
  (remaining, rows.length - remaining.length)

/-- Embedding of OperationHistory.get_by_intent: rows with the exact
intent_type, in timestamp-descending order, at most limit of them. -/
def get_by_intent (rows : List OperationRecord) (intent_type : String)
    (limit : Nat := 10) : List OperationRecord :=
  (sortRows (rows.filter (fun r => r.intent_type == intent_type))).take limit

/-- The five package managers of the section 4.1 table. -/
inductive Manager where
  | apt | dnf | pacman | zypper | apk
deriving DecidableEq, Repr

/-- The five adapter operations. -/
inductive Operation where
  | install | remove | update | upgrade | search
deriving DecidableEq, Repr

/-- The source adapter implementation for each manager. -/
def adapterOf : Manager → Bool → PackageManagerAdapter
  | .apt, d => AptAdapter d
  | .dnf, d => DnfAdapter d
  | .pacman, d => PacmanAdapter d
  | .zypper, d => ZypperAdapter d
  | .apk, d => ApkAdapter d

/-- Argument vector the source adapter produces for one manager, dry-run
flag, operation, package list and query. -/
def opCmd (m : Manager) (dry : Bool) (op : Operation) (ps : List String) (q : String) :
    List String :=
  match op with
  | .install => (adapterOf m dry).install ps
  | .remove => (adapterOf m dry).remove ps
  | .update => (adapterOf m dry).update
  | .upgrade => (adapterOf m dry).upgrade
  | .search => (adapterOf m dry).search q

/-- Dry-run column of the section 4.1 table, written from the spec (the
search column has a single entry used for both dry and real). -/
def spec_dry_cmd : Manager → Operation → List String → String → List String
  | .apt, .install, ps, _ => ["apt", "install", "-s"] ++ ps
  | .apt, .remove, ps, _ => ["apt", "remove", "-s"] ++ ps
  | .apt, .update, _, _ => ["apt", "update", "-s"]
  | .apt, .upgrade, _, _ => ["apt", "upgrade", "-s"]
  | .apt, .search, _, q => ["apt", "search", q]
  | .dnf, .install, ps, _ => ["dnf", "install", "--assumeno"] ++ ps
  | .dnf, .remove, ps, _ => ["dnf", "remove", "--assumeno"] ++ ps
  | .dnf, .update, _, _ => ["dnf", "upgrade", "--assumeno"]
  | .dnf, .upgrade, _, _ => ["dnf", "upgrade", "--assumeno"]
  | .dnf, .search, _, q => ["dnf", "search", q]
  | .pacman, .install, ps, _ => ["pacman", "-Sp"] ++ ps
  | .pacman, .remove, ps, _ => ["pacman", "-R", "--print"] ++ ps
  | .pacman, .update, _, _ => ["pacman", "-Syu", "--print"]
  | .pacman, .upgrade, _, _ => ["pacman", "-Qu"]
  | .pacman, .search, _, q => ["pacman", "-Ss", q]
  | .zypper, .install, ps, _ => ["zypper", "--dry-run", "install"] ++ ps
  | .zypper, .remove, ps, _ => ["zypper", "--dry-run", "remove"] ++ ps
  | .zypper, .update, _, _ => ["zypper", "--dry-run", "update"]
  | .zypper, .upgrade, _, _ => ["zypper", "--dry-run", "update"]
  | .zypper, .search, _, q => ["zypper", "search", q]
  | .apk, .install, ps, _ => ["apk", "add", "--simulate"] ++ ps
  | .apk, .remove, ps, _ => ["apk", "del", "--simulate"] ++ ps
  | .apk, .update, _, _ => ["apk", "update", "--simulate"]
  | .apk, .upgrade, _, _ => ["apk", "upgrade", "--simulate"]
  | .apk, .search, _, q => ["apk", "search", q]

/-- Real column of the section 4.1 table, written from the spec; none where
the table has no real-mode entry (the upgrade column lists only the
dry-run form). -/
def spec_real_cmd : Manager → Operation → List String → String → Option (List String)
  | .apt, .install, ps, _ => some (["sudo", "apt", "install", "-y"] ++ ps)
  | .apt, .remove, ps, _ => some (["sudo", "apt", "remove", "-y"] ++ ps)
  | .apt, .update, _, _ => some ["sudo", "apt", "update"]
  | .apt, .search, _, q => some ["apt", "search", q]
  | .dnf, .install, ps, _ => some (["sudo", "dnf", "install", "-y"] ++ ps)
  | .dnf, .remove, ps, _ => some (["sudo", "dnf", "remove", "-y"] ++ ps)
  | .dnf, .update, _, _ => some ["sudo", "dnf", "upgrade", "-y"]
  | .dnf, .search, _, q => some ["dnf", "search", q]
  | .pacman, .install, ps, _ => some (["sudo", "pacman", "-S", "--noconfirm"] ++ ps)
  | .pacman, .remove, ps, _ => some (["sudo", "pacman", "-R", "--noconfirm"] ++ ps)
  | .pacman, .update, _, _ => some ["sudo", "pacman", "-Syu", "--noconfirm"]
  | .pacman, .search, _, q => some ["pacman", "-Ss", q]
  | .zypper, .install, ps, _ => some (["sudo", "zypper", "install", "-y"] ++ ps)
  | .zypper, .remove, ps, _ => some (["sudo", "zypper", "remove", "-y"] ++ ps)
  | .zypper, .update, _, _ => some ["sudo", "zypper", "update", "-y"]
  | .zypper, .search, _, q => some ["zypper", "search", q]
  | .apk, .install, ps, _ => some (["sudo", "apk", "add"] ++ ps)
  | .apk, .remove, ps, _ => some (["sudo", "apk", "del"] ++ ps)
  | .apk, .update, _, _ => some ["sudo", "apk", "update"]
  | .apk, .search, _, q => some ["apk", "search", q]
  | _, .upgrade, _, _ => none

/-- Claim C1: every adapter, operation and dryRun value returns exactly the
argument vector of the section 4.1 table, and build_plan composes the
distro lookup with the adapters: the two end-to-end scenarios on ubuntu
install and arch upgrade hold verbatim. -/
theorem c1_adapter_table (m : Manager) (op : Operation) (ps : List String) (q : String) :
    opCmd m true op ps q = spec_dry_cmd m op ps q ∧
    (∀ v, spec_real_cmd m op ps q = some v → opCmd m false op ps q = v) ∧
    (build_plan (.InstallPackage "htop" false) (some "ubuntu")).map Plan.simulate_cmd =
      .ok (some ["apt", "install", "-s", "htop"]) ∧
    (build_plan (.InstallPackage "htop" false) (some "ubuntu")).map Plan.real_cmd =
      .ok (some ["sudo", "apt", "install", "-y", "htop"]) ∧
    (build_plan .UpgradeSystem (some "arch")).map Plan.simulate_cmd =
      .ok (some ["pacman", "-Qu"]) := by
  refine ⟨?_, ?_, rfl, rfl, rfl⟩
  · cases m <;> cases op <;> rfl
  · cases m <;> cases op <;> intro v hv <;> (try cases hv) <;> rfl

/-- Claim C1 witness: the theorem applied at apt install with a concrete
package list discharges the table hypothesis. -/
theorem c1_adapter_table_witness :
    opCmd .apt false .install ["htop"] "q" = ["sudo", "apt", "install", "-y", "htop"] :=
  (c1_adapter_table .apt .install ["htop"] "q").2.1
    ["sudo", "apt", "install", "-y", "htop"] rfl

/-- Preview or read-only flag of the section 4.1 table for each manager and
operation, written from the spec; none for search, which is read-only as
given. -/
def spec_preview_flag : Manager → Operation → Option String
  | _, .search => none
  | .apt, _ => some "-s"
  | .dnf, _ => some "--assumeno"
  | .pacman, .install => some "-Sp"
  | .pacman, .upgrade => some "-Qu"
  | .pacman, _ => some "--print"
  | .zypper, _ => some "--dry-run"
  | .apk, _ => some "--simulate"

/-- Claim C2: for every manager and operation, the dry-run vector holds no
auto-confirm flag and holds the documented preview flag of the table, for
package lists and queries that are not themselves those flags. -/
theorem c2_dry_run_safety (m : Manager) (op : Operation) (ps : List String) (q : String)
    (hy : "-y" ∉ ps) (hn : "--noconfirm" ∉ ps)
    (hqy : q ≠ "-y") (hqn : q ≠ "--noconfirm") :
    "-y" ∉ opCmd m true op ps q ∧ "--noconfirm" ∉ opCmd m true op ps q ∧
    ∀ f, spec_preview_flag m op = some f → f ∈ opCmd m true op ps q := by
  cases m <;> cases op <;>
    simp_all [opCmd, adapterOf, AptAdapter, DnfAdapter, PacmanAdapter, ZypperAdapter,
      ApkAdapter, spec_preview_flag] <;>
    exact ⟨Ne.symm hqy, Ne.symm hqn⟩

/-- Claim C2 witness: pacman upgrade with a concrete package list. -/
theorem c2_dry_run_safety_witness :
    "-y" ∉ opCmd .pacman true .upgrade ["htop"] "vim" ∧
    "--noconfirm" ∉ opCmd .pacman true .upgrade ["htop"] "vim" ∧
    ∀ f, spec_preview_flag .pacman .upgrade = some f →
      f ∈ opCmd .pacman true .upgrade ["htop"] "vim" :=
  c2_dry_run_safety .pacman .upgrade ["htop"] "vim"
    (by decide) (by decide) (by decide) (by decide)

/-- Claim C5: assume_yes never changes the plan built for InstallPackage or
RemovePackage: plans for any two values of the flag are identical. -/
theorem c5_assume_yes_inert (package : String) (a1 a2 : Bool) (d : Option String) :
    build_plan (.InstallPackage package a1) d = build_plan (.InstallPackage package a2) d ∧
    build_plan (.RemovePackage package a1) d = build_plan (.RemovePackage package a2) d := by
  constructor
  · cases a1 <;> cases a2 <;> rfl
  · rfl

/-- Claim C9: a plan with no simulate command gets the literal summary
"nothing to simulate" and a plan with no real command the literal
"no execution needed", in both cases with no shell invocation: the result
does not depend on the shell oracle and no log entry is produced. -/
theorem c9_trivial_paths :
    (∀ (plan : Plan) (sA sB : List String → ShellOutcome), plan.simulate_cmd = none →
        simulate plan sA = simulate plan sB ∧
        (simulate plan sA).1.summary = "<nothing to simulate>" ∧
        (simulate plan sA).2 = none) ∧
    (∀ (plan : Plan) (sA sB : List String → ShellOutcome), plan.real_cmd = none →
        execute plan sA = execute plan sB ∧
        (execute plan sA).1.summary = "<no execution needed>" ∧
        (execute plan sA).1.result = none ∧
        (execute plan sA).2 = none) := by
  constructor
  · intro plan sA sB h
    simp [simulate, h, cmdFalsy]
  · intro plan sA sB h
    simp [execute, h, cmdFalsy]

/-- Claim C9 witness: a concrete command-free plan under two different shell
oracles. -/
theorem c9_trivial_paths_witness :
    (simulate { description := "Explain command: ls", simulate_cmd := none, real_cmd := none }
        (fun _ => .timedOut) =
      simulate { description := "Explain command: ls", simulate_cmd := none, real_cmd := none }
        (fun _ => .completed 0 "" "") ∧
      (simulate { description := "Explain command: ls", simulate_cmd := none, real_cmd := none }
        (fun _ => .timedOut)).1.summary = "<nothing to simulate>" ∧
      (simulate { description := "Explain command: ls", simulate_cmd := none, real_cmd := none }
        (fun _ => .timedOut)).2 = none) ∧
    (execute { description := "Explain command: ls", simulate_cmd := none, real_cmd := none }
        (fun _ => .timedOut) =
      execute { description := "Explain command: ls", simulate_cmd := none, real_cmd := none }
        (fun _ => .completed 0 "" "") ∧
      (execute { description := "Explain command: ls", simulate_cmd := none, real_cmd := none }
        (fun _ => .timedOut)).1.summary = "<no execution needed>" ∧
      (execute { description := "Explain command: ls", simulate_cmd := none, real_cmd := none }
        (fun _ => .timedOut)).1.result = none ∧
      (execute { description := "Explain command: ls", simulate_cmd := none, real_cmd := none }
        (fun _ => .timedOut)).2 = none) :=
  ⟨c9_trivial_paths.1 _ _ _ rfl, c9_trivial_paths.2 _ _ _ rfl⟩

/-- Claim C4 counterexample: TroubleshootError is a variant of the closed
intent union, yet build_plan raises the unsupported-intent error for it
instead of returning a Plan. -/
theorem c4_counterexample :
    ¬ ∃ p, build_plan (.TroubleshootError "disk full") (some "ubuntu") = .ok p := by
  rintro ⟨p, hp⟩
  exact Except.noConfusion hp

/-- Helper: preferred_pkg_manager only returns one of the six literals. -/
lemma preferred_pkg_manager_cases (d : String) :
    preferred_pkg_manager d = "apt" ∨ preferred_pkg_manager d = "dnf" ∨
    preferred_pkg_manager d = "pacman" ∨ preferred_pkg_manager d = "zypper" ∨
    preferred_pkg_manager d = "apk" ∨ preferred_pkg_manager d = "unknown" := by
  simp only [preferred_pkg_manager]
  split
  · simp
  · split
    · simp
    · split
      · simp
      · split
        · simp
        · split <;> simp

/-- Helper: a known package-manager name resolves to an adapter. -/
lemma get_adapter_ok (pm : String) (b : Bool)
    (h : pm = "apt" ∨ pm = "dnf" ∨ pm = "pacman" ∨ pm = "zypper" ∨ pm = "apk") :
    ∃ a, get_adapter pm b = .ok a := by
  rcases h with h | h | h | h | h <;> subst h <;> exact ⟨_, rfl⟩

/-- Claim C4 amended: for every distro id that resolves to a known package
manager, build_plan returns a Plan for the seven dispatched variants
(for ExplainCommand, provided the command has a non-whitespace token),
while the in-set variant TroubleshootError fails with the
unsupported-intent error. -/
theorem c4_dispatch_amended (intent : IntentType) (d : Option String)
    (hnt : ∀ s, intent ≠ .TroubleshootError s)
    (hpm : preferred_pkg_manager (defaultDistro d) ≠ "unknown")
    (hex : ∀ c, intent = .ExplainCommand c → (firstTokenOpt c).isSome) :
    (∃ p, build_plan intent d = .ok p) ∧
    ∀ s, build_plan (.TroubleshootError s) d =
      .error "Unsupported intent type: TroubleshootError" := by
  refine ⟨?_, fun s => rfl⟩
  have hm : preferred_pkg_manager (defaultDistro d) = "apt" ∨
      preferred_pkg_manager (defaultDistro d) = "dnf" ∨
      preferred_pkg_manager (defaultDistro d) = "pacman" ∨
      preferred_pkg_manager (defaultDistro d) = "zypper" ∨
      preferred_pkg_manager (defaultDistro d) = "apk" := by
    rcases preferred_pkg_manager_cases (defaultDistro d) with h | h | h | h | h | h
    · exact Or.inl h
    · exact Or.inr (Or.inl h)
    · exact Or.inr (Or.inr (Or.inl h))
    · exact Or.inr (Or.inr (Or.inr (Or.inl h)))
    · exact Or.inr (Or.inr (Or.inr (Or.inr h)))
    · exact absurd h hpm
  obtain ⟨a, ha⟩ := get_adapter_ok _ false hm
  obtain ⟨da, hda⟩ := get_adapter_ok _ true hm
  cases intent with
  | DetectDistro => exact ⟨_, rfl⟩
  | SearchPackage q =>
      simp only [build_plan, ha, hda]
      exact ⟨_, rfl⟩
  | InstallPackage p ay =>
      simp only [build_plan, ha, hda]
      exact ⟨_, rfl⟩
  | RemovePackage p ay =>
      simp only [build_plan, ha, hda]
      exact ⟨_, rfl⟩
  | UpdateSystem =>
      simp only [build_plan, ha, hda]
      exact ⟨_, rfl⟩
  | UpgradeSystem =>
      simp only [build_plan, ha, hda]
      exact ⟨_, rfl⟩
  | ExplainCommand c =>
      obtain ⟨tok, htok⟩ := Option.isSome_iff_exists.mp (hex c rfl)
      simp only [build_plan, htok]
      exact ⟨_, rfl⟩
  | TroubleshootError s => exact absurd rfl (hnt s)

/-- Claim C4 amended witness: UpdateSystem on fedora. -/
theorem c4_dispatch_amended_witness :
    (∃ p, build_plan .UpdateSystem (some "fedora") = .ok p) ∧
    ∀ s, build_plan (.TroubleshootError s) (some "fedora") =
      .error "Unsupported intent type: TroubleshootError" :=
  c4_dispatch_amended .UpdateSystem (some "fedora")
    (fun _ h => IntentType.noConfusion h) (by decide)
    (fun _ h => IntentType.noConfusion h)

/-- Plan used to refute claim C3: a real command that exits nonzero while
writing nothing to stderr. -/
def c3Plan : Plan :=
  { description := "Install package htop using apt",
    simulate_cmd := none,
    real_cmd := some ["sudo", "apt", "install", "-y", "htop"] }

/-- Shell oracle for the claim C3 counterexample: exit code 100, both
streams empty. -/
def c3Shell : List String → ShellOutcome := fun _ => .completed 100 "" ""

/-- Claim C3 counterexample: a nonzero exit with empty stderr yields a
failed record whose error_message is null, contradicting the claimed
non-null error_message. -/
theorem c3_counterexample :
    ∃ entry, (execute c3Plan c3Shell).2 = some entry ∧
      entry.status = "failed" ∧ entry.error_message = none :=
  ⟨_, rfl, rfl, rfl⟩

/-- Claim C3 amended: executing a plan whose real command exits nonzero
logs a record with status failed; its error_message is the first 500
characters of stderr when stderr is non-empty and null when stderr is
empty. -/
theorem c3_execute_failed_record (plan : Plan) (shell : List String → ShellOutcome)
    (c : String) (cs : List String) (rc : Int) (out err : String) (w : String)
    (hcmd : plan.real_cmd = some (c :: cs))
    (hshell : shell (c :: cs) = .completed rc out err)
    (hrc : rc ≠ 0)
    (htok : firstTokenOpt plan.description = some w) :
    ∃ entry, (execute plan shell).2 = some entry ∧ entry.status = "failed" ∧
      entry.error_message = (if err = "" then none else some (err.take 500)) := by
  have h0 : (rc == 0) = false := beq_eq_false_iff_ne.mpr hrc
  simp only [execute, hcmd, cmdFalsy, Option.getD, hshell, run, h0, htok, Option.map_some,
    Bool.false_eq_true, if_false, bne, Bool.not_false, Bool.true_and]
  refine ⟨_, rfl, rfl, ?_⟩
  by_cases he : err = "" <;> simp [he]

/-- Claim C3 amended witness: the amended theorem applied to the concrete
counterexample plan with nonzero exit and non-empty stderr. -/
theorem c3_execute_failed_record_witness :
    ∃ entry,
      (execute c3Plan (fun _ => .completed 100 "" "permission denied")).2 = some entry ∧
      entry.status = "failed" ∧
      entry.error_message =
        (if "permission denied" = "" then none else some ("permission denied".take 500)) :=
  c3_execute_failed_record c3Plan (fun _ => .completed 100 "" "permission denied")
    "sudo" ["apt", "install", "-y", "htop"] 100 "" "permission denied" "Install"
    rfl rfl (by decide) (by decide)

/-- Claim C8: shell failures are captured as data, never propagated: a
timeout or spawn failure is returned as a ShellResult with returncode -1
and a synthetic stderr message, and simulate and execute always return a
structured result built from that ShellResult for every plan and oracle. -/
theorem c8_failures_captured (cmd : List String) (msg : String) :
    (run cmd .timedOut).returncode ≠ 0 ∧
    (run cmd .timedOut).stderr = "TIMEOUT: command exceeded limit" ∧
    (run cmd (.spawnFailure msg)).returncode ≠ 0 ∧
    (run cmd (.spawnFailure msg)).stderr = "ERROR: " ++ msg ∧
    (∀ (plan : Plan) (shell : List String → ShellOutcome) (c : String) (cs : List String),
        plan.simulate_cmd = some (c :: cs) →
        (simulate plan shell).1.result =
          { run (c :: cs) (shell (c :: cs)) with simulated := true } ∧
        (simulate plan shell).1.summary =
          summarize_output (run (c :: cs) (shell (c :: cs))).stdout
            (run (c :: cs) (shell (c :: cs))).stderr) ∧
    (∀ (plan : Plan) (shell : List String → ShellOutcome) (c : String) (cs : List String),
        plan.real_cmd = some (c :: cs) →
        (execute plan shell).1.result = some (run (c :: cs) (shell (c :: cs))) ∧
        (execute plan shell).1.summary =
          summarize_output (run (c :: cs) (shell (c :: cs))).stdout
            (run (c :: cs) (shell (c :: cs))).stderr) ∧
    (∀ (plan : Plan) (shell : List String → ShellOutcome),
        (simulate plan shell).1.plan = plan ∧ (execute plan shell).1.plan = plan) := by
  refine ⟨?_, rfl, ?_, rfl, ?_, ?_, ?_⟩
  · show (-1 : Int) ≠ 0
    decide
  · show (-1 : Int) ≠ 0
    decide
  · intro plan shell c cs h
    constructor <;> simp [simulate, h, cmdFalsy]
  · intro plan shell c cs h
    constructor <;> simp [execute, h, cmdFalsy]
  · intro plan shell
    constructor
    · unfold simulate
      split <;> rfl
    · unfold execute
      split <;> rfl

/-- Claim C8 witness: concrete command, message, plan and a timing-out
oracle. -/
theorem c8_failures_captured_witness :
    (run ["apt", "update"] .timedOut).returncode ≠ 0 ∧
    (simulate { description := "Detect Linux distribution and version",
                simulate_cmd := some ["cat", "/etc/os-release"], real_cmd := none }
        (fun _ => .timedOut)).1.result =
      { run ["cat", "/etc/os-release"]
          ((fun _ => ShellOutcome.timedOut) ["cat", "/etc/os-release"]) with
        simulated := true } :=
  ⟨(c8_failures_captured ["apt", "update"] "m").1,
   ((c8_failures_captured ["apt", "update"] "m").2.2.2.2.1
      { description := "Detect Linux distribution and version",
        simulate_cmd := some ["cat", "/etc/os-release"], real_cmd := none }
      (fun _ => .timedOut) "cat" ["/etc/os-release"] rfl).1⟩

/-- The last max_lines entries of a list, written from the spec side as the
reversed take of the reversed sequence. -/
def lastLines (l : List String) (max_lines : Nat) : List String :=
  (l.reverse.take max_lines).reverse

/-- Summary construction as the spec sentence words it: the non-empty lines
of the trimmed stdout, then, when stderr has content, the STDERR marker
and the non-empty stderr lines, keeping only the last max_lines lines and
falling back to the no-output placeholder. -/
def spec_summarize (stdout stderr : String) (max_lines : Nat) : String :=
  let out_lines := nonBlankLines stdout
  let err_lines := nonBlankLines stderr
  let seq := out_lines ++ (if err_lines.isEmpty then [] else "--- STDERR ---" :: err_lines)
  if (lastLines seq max_lines).isEmpty then "<no output>"
  else String.intercalate "\n" (lastLines seq max_lines)

/-- Helper: the tail computation of summarize_output is exactly the last
max_lines lines. -/
lemma drop_eq_lastLines (l : List String) (n : Nat) :
    (if l.length > n then l.drop (l.length - n) else l) = lastLines l n := by
  unfold lastLines
  rw [List.take_reverse, List.reverse_reverse]
  by_cases h : l.length > n
  · simp [h]
  · have h0 : l.length - n = 0 := by omega
    simp [h, h0]

/-- Claim C7: summarize_output returns the concatenation of the non-empty
lines of the trimmed stdout, followed, when stderr has content, by the
STDERR marker and the non-empty stderr lines, keeping only the last
max_lines lines of that combined sequence, and the literal no-output
placeholder when both streams are empty. -/
theorem c7_summarize_output_spec (stdout stderr : String) (n : Nat) :
    summarize_output stdout stderr n = spec_summarize stdout stderr n ∧
    summarize_output "" "" n = "<no output>" := by
  constructor
  · simp only [summarize_output, spec_summarize]
    rw [drop_eq_lastLines]
    rcases Classical.em (nonBlankLines stderr = []) with he | he <;>
      simp_all [List.isEmpty_iff]
  · have h0 : nonBlankLines "" = [] := rfl
    simp [summarize_output, h0]

/-- First words of the seven plan description templates build_plan uses. -/
def allowedFirstWords : List String :=
  ["Detect", "Search", "Install", "Remove", "Update", "Upgrade", "Explain"]

/-- Names of the eight intent variants of the closed union. -/
def intentVariantNames : List String :=
  ["DetectDistro", "SearchPackage", "InstallPackage", "RemovePackage",
   "UpdateSystem", "UpgradeSystem", "ExplainCommand", "TroubleshootError"]

/-- Helper: takeWhile stops at the first failing character after an all-good
block. -/
lemma takeWhile_stops (t r : List Char) (c : Char)
    (hnw : ∀ x ∈ t, (!x.isWhitespace) = true) (hc : (!c.isWhitespace) = false) :
    (t ++ c :: r).takeWhile (fun ch => !ch.isWhitespace) = t := by
  induction t with
  | nil => simp [List.takeWhile_cons, hc]
  | cons a t ih =>
      have ha := hnw a (by simp)
      simp only [List.cons_append, List.takeWhile_cons, ha, if_true]
      rw [ih (fun x hx => hnw x (by simp [hx]))]

/-- Helper: the first token of a non-whitespace word followed by a whitespace
character is the word itself. -/
lemma firstTokenAux_word (t r : List Char) (c : Char) (ht : t ≠ [])
    (hnw : ∀ x ∈ t, (!x.isWhitespace) = true) (hc : c.isWhitespace = true) :
    firstTokenAux (t ++ c :: r) = t := by
  cases t with
  | nil => exact absurd rfl ht
  | cons a t =>
      have ha : a.isWhitespace = false := by
        have := hnw a (by simp)
        simpa using this
      unfold firstTokenAux
      rw [List.cons_append, List.dropWhile_cons]
      simp only [ha, Bool.false_eq_true, if_false]
      rw [← List.cons_append]
      exact takeWhile_stops _ _ _ hnw (by simp [hc])

/-- Helper: the first whitespace-separated token of a description starting
with a non-blank word and a space is that word. -/
lemma firstTokenOpt_word (w rest : String) (hw : w.data ≠ [])
    (hnw : ∀ x ∈ w.data, (!x.isWhitespace) = true) :
    firstTokenOpt (w ++ (" " ++ rest)) = some w := by
  have hdata : (w ++ (" " ++ rest)).data = w.data ++ (Char.ofNat 32) :: rest.data := by
    rw [String.data_append, String.data_append]
    rfl
  unfold firstTokenOpt
  rw [hdata, firstTokenAux_word w.data rest.data (Char.ofNat 32) hw hnw (by decide)]
  have hne : w.data.isEmpty = false := by
    cases hd : w.data with
    | nil => exact absurd hd hw
    | cons a l => rfl
  simp only [hne, Bool.false_eq_true, if_false, Option.some.injEq]

/-- Helper: the first word of the description of every plan build_plan
returns is one of the seven template first words. -/
lemma build_plan_first_word (intent : IntentType) (d : Option String) (plan : Plan)
    (h : build_plan intent d = .ok plan) :
    ∃ w, firstTokenOpt plan.description = some w ∧ w ∈ allowedFirstWords := by
  cases intent with
  | DetectDistro =>
      simp only [build_plan] at h
      injection h with h
      subst h
      exact ⟨"Detect", by decide, by decide⟩
  | SearchPackage q =>
      simp only [build_plan] at h
      cases hA : get_adapter (preferred_pkg_manager (defaultDistro d)) false with
      | error e => rw [hA] at h; simp at h
      | ok a =>
          cases hB : get_adapter (preferred_pkg_manager (defaultDistro d)) true with
          | error e => rw [hA, hB] at h; simp at h
          | ok da =>
              rw [hA, hB] at h
              simp only [Except.ok.injEq] at h
              subst h
              refine ⟨"Search", ?_, by decide⟩
              show firstTokenOpt ("Search for package " ++ apos ++ q ++ apos ++ " using " ++
                preferred_pkg_manager (defaultDistro d)) = some "Search"
              rw [show ("Search for package " : String) = "Search" ++ " " ++ "for package "
                from by decide]
              simp only [String.append_assoc]
              exact firstTokenOpt_word "Search" _ (by decide) (by decide)
  | InstallPackage p ay =>
      simp only [build_plan] at h
      cases hA : get_adapter (preferred_pkg_manager (defaultDistro d)) false with
      | error e => rw [hA] at h; simp at h
      | ok a =>
          cases hB : get_adapter (preferred_pkg_manager (defaultDistro d)) true with
          | error e => rw [hA, hB] at h; simp at h
          | ok da =>
              rw [hA, hB] at h
              simp only [Except.ok.injEq] at h
              subst h
              refine ⟨"Install", ?_, by decide⟩
              show firstTokenOpt ("Install package " ++ apos ++ p ++ apos ++ " using " ++
                preferred_pkg_manager (defaultDistro d)) = some "Install"
              rw [show ("Install package " : String) = "Install" ++ " " ++ "package "
                from by decide]
              simp only [String.append_assoc]
              exact firstTokenOpt_word "Install" _ (by decide) (by decide)
  | RemovePackage p ay =>
      simp only [build_plan] at h
      cases hA : get_adapter (preferred_pkg_manager (defaultDistro d)) false with
      | error e => rw [hA] at h; simp at h
      | ok a =>
          cases hB : get_adapter (preferred_pkg_manager (defaultDistro d)) true with
          | error e => rw [hA, hB] at h; simp at h
          | ok da =>
              rw [hA, hB] at h
              simp only [Except.ok.injEq] at h
              subst h
              refine ⟨"Remove", ?_, by decide⟩
              show firstTokenOpt ("Remove package " ++ apos ++ p ++ apos ++ " using " ++
                preferred_pkg_manager (defaultDistro d)) = some "Remove"
              rw [show ("Remove package " : String) = "Remove" ++ " " ++ "package "
                from by decide]
              simp only [String.append_assoc]
              exact firstTokenOpt_word "Remove" _ (by decide) (by decide)
  | UpdateSystem =>
      simp only [build_plan] at h
      cases hA : get_adapter (preferred_pkg_manager (defaultDistro d)) false with
      | error e => rw [hA] at h; simp at h
      | ok a =>
          cases hB : get_adapter (preferred_pkg_manager (defaultDistro d)) true with
          | error e => rw [hA, hB] at h; simp at h
          | ok da =>
              rw [hA, hB] at h
              simp only [Except.ok.injEq] at h
              subst h
              refine ⟨"Update", ?_, by decide⟩
              show firstTokenOpt ("Update system package lists (" ++
                preferred_pkg_manager (defaultDistro d) ++ ")") = some "Update"
              rw [show ("Update system package lists (" : String) =
                "Update" ++ " " ++ "system package lists (" from by decide]
              simp only [String.append_assoc]
              exact firstTokenOpt_word "Update" _ (by decide) (by decide)
  | UpgradeSystem =>
      simp only [build_plan] at h
      cases hA : get_adapter (preferred_pkg_manager (defaultDistro d)) false with
      | error e => rw [hA] at h; simp at h
      | ok a =>
          cases hB : get_adapter (preferred_pkg_manager (defaultDistro d)) true with
          | error e => rw [hA, hB] at h; simp at h
          | ok da =>
              rw [hA, hB] at h
              simp only [Except.ok.injEq] at h
              subst h
              refine ⟨"Upgrade", ?_, by decide⟩
              show firstTokenOpt ("Upgrade installed packages (" ++
                preferred_pkg_manager (defaultDistro d) ++ ")") = some "Upgrade"
              rw [show ("Upgrade installed packages (" : String) =
                "Upgrade" ++ " " ++ "installed packages (" from by decide]
              simp only [String.append_assoc]
              exact firstTokenOpt_word "Upgrade" _ (by decide) (by decide)
  | ExplainCommand c =>
      simp only [build_plan] at h
      cases hT : firstTokenOpt c with
      | none => rw [hT] at h; simp at h
      | some tok =>
          rw [hT] at h
          simp only [Except.ok.injEq] at h
          subst h
          refine ⟨"Explain", ?_, by decide⟩
          show firstTokenOpt ("Explain command: " ++ c) = some "Explain"
          rw [show ("Explain command: " : String) = "Explain" ++ " " ++ "command: "
            from by decide]
          simp only [String.append_assoc]
          exact firstTokenOpt_word "Explain" _ (by decide) (by decide)
  | TroubleshootError s => exact Except.noConfusion h

/-- Claim C10: every record simulate or execute logs for a plan built by
build_plan carries the first whitespace-separated word of the plan
description as its intent_type, one of the seven template words and never
an intent variant name; consequently get_by_intent queried with a variant
name matches no workflow-logged record. -/
theorem c10_intent_type_first_word (intent : IntentType) (d : Option String) (plan : Plan)
    (shell : List String → ShellOutcome)
    (h : build_plan intent d = .ok plan) :
    ∃ w, firstTokenOpt plan.description = some w ∧
      w ∈ allowedFirstWords ∧ w ∉ intentVariantNames ∧
      (∀ entry, (simulate plan shell).2 = some entry → entry.intent_type = w) ∧
      (∀ entry, (execute plan shell).2 = some entry → entry.intent_type = w) ∧
      (∀ (rows : List OperationRecord) (lim : Nat) (v : String),
          (∀ r ∈ rows, r.intent_type ∈ allowedFirstWords) → v ∈ intentVariantNames →
          get_by_intent rows v lim = []) := by
  obtain ⟨w, hw, hmem⟩ := build_plan_first_word intent d plan h
  have hdisj : ∀ x ∈ allowedFirstWords, x ∉ intentVariantNames := by decide
  refine ⟨w, hw, hmem, hdisj w hmem, ?_, ?_, ?_⟩
  · intro entry he
    unfold simulate at he
    split at he
    · simp at he
    · rw [hw] at he
      simp only [Option.map_some] at he
      injection he with he
      rw [← he]
  · intro entry he
    unfold execute at he
    split at he
    · simp at he
    · rw [hw] at he
      simp only [Option.map_some] at he
      injection he with he
      rw [← he]
  · intro rows lim v hall hv
    unfold get_by_intent
    have hfil : rows.filter (fun r => r.intent_type == v) = [] := by
      rw [List.filter_eq_nil_iff]
      intro r hr
      have h2 : r.intent_type ≠ v := fun hEq => hdisj _ (hall r hr) (hEq ▸ hv)
      simpa using h2
    rw [hfil]
    simp [sortRows]

/-- Claim C10 witness: the DetectDistro plan under a completing oracle. -/
theorem c10_intent_type_first_word_witness :
    ∃ w, firstTokenOpt (Plan.description
        { description := "Detect Linux distribution and version",
          simulate_cmd := some ["cat", "/etc/os-release"], real_cmd := none }) = some w ∧
      w ∈ allowedFirstWords ∧ w ∉ intentVariantNames ∧
      (∀ entry, (simulate
          { description := "Detect Linux distribution and version",
            simulate_cmd := some ["cat", "/etc/os-release"], real_cmd := none }
          (fun _ => .completed 0 "" "")).2 = some entry → entry.intent_type = w) ∧
      (∀ entry, (execute
          { description := "Detect Linux distribution and version",
            simulate_cmd := some ["cat", "/etc/os-release"], real_cmd := none }
          (fun _ => .completed 0 "" "")).2 = some entry → entry.intent_type = w) ∧
      (∀ (rows : List OperationRecord) (lim : Nat) (v : String),
          (∀ r ∈ rows, r.intent_type ∈ allowedFirstWords) → v ∈ intentVariantNames →
          get_by_intent rows v lim = []) :=
  c10_intent_type_first_word .DetectDistro none _ (fun _ => .completed 0 "" "") rfl

/-- Row with timestamp 5 and id 1, used for the claim C6 tie counterexample. -/
def c6RowA : OperationRecord :=
  { id := 1, timestamp := 5, intent_type := "Install", command := "sudo apt install -y htop",
    status := "simulated", output_summary := "", error_message := none }

/-- Row with the same timestamp 5 and id 2. -/
def c6RowB : OperationRecord :=
  { id := 2, timestamp := 5, intent_type := "Install", command := "sudo apt install -y htop",
    status := "simulated", output_summary := "", error_message := none }

/-- Claim C6 counterexample: with two rows sharing a timestamp and
keep_count 1, the surviving row is not strictly more recent than the
deleted one, refuting the strictness part of the claim. -/
theorem c6_counterexample :
    ¬ (∀ r ∈ (cleanup_old [c6RowA, c6RowB] 1).1, ∀ e ∈ [c6RowA, c6RowB],
        e ∉ (cleanup_old [c6RowA, c6RowB] 1).1 → e.timestamp < r.timestamp) := by
  decide

/-- Claim C6 amended: for stores with pairwise distinct row ids (the primary
key invariant), cleanup_old keeps exactly min of keep_count and the row
count, every surviving row is at least as recent as every deleted row, and
the returned count is the number of deleted rows. -/
theorem c6_cleanup_old (rows : List OperationRecord) (k : Nat)
    (hids : (rows.map OperationRecord.id).Nodup) :
    (cleanup_old rows k).1.length = min k rows.length ∧
    (∀ r ∈ (cleanup_old rows k).1, ∀ e ∈ rows, e ∉ (cleanup_old rows k).1 →
        e.timestamp ≤ r.timestamp) ∧
    (cleanup_old rows k).2 = rows.length - min k rows.length := by
  have hperm : List.Perm (sortRows rows) rows := List.perm_insertionSort RowLE rows
  have hnd : rows.Nodup := hids.of_map
  have hnds : (sortRows rows).Nodup := hperm.nodup_iff.mpr hnd
  have hkept_sub : List.Sublist ((sortRows rows).take k) (sortRows rows) :=
    List.take_sublist _ _
  have hndk : ((sortRows rows).take k).Nodup := hnds.sublist hkept_sub
  have hkept_rows : ∀ x ∈ (sortRows rows).take k, x ∈ rows := fun x hx =>
    hperm.mem_iff.mp (hkept_sub.subset hx)
  have hinj := List.inj_on_of_nodup_map hids
  have hchar : ∀ x ∈ rows,
      ((((sortRows rows).take k).map OperationRecord.id).contains x.id = true ↔
        x ∈ (sortRows rows).take k) := by
    intro x hx
    show List.elem x.id (((sortRows rows).take k).map OperationRecord.id) = true ↔ _
    rw [List.elem_iff]
    constructor
    · intro hc
      obtain ⟨y, hy, hyid⟩ := List.mem_map.mp hc
      exact (hinj (hkept_rows y hy) hx hyid) ▸ hy
    · intro hk
      exact List.mem_map.mpr ⟨x, hk, rfl⟩
  have hrem : (cleanup_old rows k).1 =
      rows.filter (fun r => (((sortRows rows).take k).map OperationRecord.id).contains r.id) :=
    rfl
  have hmemrem : ∀ x, x ∈ (cleanup_old rows k).1 ↔ x ∈ (sortRows rows).take k := by
    intro x
    rw [hrem, List.mem_filter]
    constructor
    · rintro ⟨hx, hc⟩
      exact (hchar x hx).mp hc
    · intro hk
      exact ⟨hkept_rows x hk, (hchar x (hkept_rows x hk)).mpr hk⟩
  have hndrem : (cleanup_old rows k).1.Nodup := by
    rw [hrem]
    exact hnd.filter _
  have hpermk : List.Perm ((cleanup_old rows k).1) ((sortRows rows).take k) :=
    (List.perm_ext_iff_of_nodup hndrem hndk).mpr hmemrem
  have hlen : (cleanup_old rows k).1.length = min k rows.length := by
    rw [hpermk.length_eq, List.length_take, hperm.length_eq]
  refine ⟨hlen, ?_, ?_⟩
  · intro r hr e he hen
    have hrk : r ∈ (sortRows rows).take k := (hmemrem r).mp hr
    have hek : e ∉ (sortRows rows).take k := fun hk => hen ((hmemrem e).mpr hk)
    have hes : e ∈ sortRows rows := hperm.mem_iff.mpr he
    have hedrop : e ∈ (sortRows rows).drop k := by
      rcases List.mem_append.mp ((List.take_append_drop k (sortRows rows)) ▸ hes) with h1 | h1
      · exact absurd h1 hek
      · exact h1
    have hpw : (sortRows rows).Pairwise RowLE := List.sorted_insertionSort RowLE rows
    have hrel : RowLE r e :=
      (List.pairwise_append.mp ((List.take_append_drop k (sortRows rows)).symm ▸ hpw)).2.2
        r hrk e hedrop
    rcases hrel with h1 | ⟨h1, _⟩
    · exact Nat.le_of_lt h1
    · exact Nat.le_of_eq h1.symm
  · show rows.length - (cleanup_old rows k).1.length = rows.length - min k rows.length
    rw [hlen]

/-- Claim C6 amended witness: two rows with distinct ids, keep_count 1. -/
theorem c6_cleanup_old_witness :
    (cleanup_old [c6RowA, c6RowB] 1).1.length = min 1 [c6RowA, c6RowB].length ∧
    (∀ r ∈ (cleanup_old [c6RowA, c6RowB] 1).1, ∀ e ∈ [c6RowA, c6RowB],
        e ∉ (cleanup_old [c6RowA, c6RowB] 1).1 → e.timestamp ≤ r.timestamp) ∧
    (cleanup_old [c6RowA, c6RowB] 1).2 = [c6RowA, c6RowB].length - min 1 [c6RowA, c6RowB].length :=
  c6_cleanup_old [c6RowA, c6RowB] 1 (by decide)

end Tinyllamax
